import Mathlib

/-!
Shallow embedding of `custom_components/asusrouter/router.py` (novisys/ha-asusrouter).

Conventions of the embedding:
* Timestamps (`datetime`) are integers counting seconds; `(a - b).total_seconds()`
  becomes integer subtraction.  `dt_util.utcnow()` is passed in as an explicit
  `now` argument.
* Python dictionaries are association lists (`List (K × V)`) with insertion
  order preserved; assignment replaces the value at the existing position or
  appends a new pair at the end, exactly as CPython dicts do.
* Fallible code returns `Option` (or `Except`): `none` marks a point where the
  Python raises an uncaught exception (`TypeError`, `KeyError`, `IndexError`).
* Callback side effects (`event_call`, `connected_call`, dispatcher signals,
  log calls) are returned as explicit event lists instead of being performed.
-/

/-- Heterogeneous value stored in Python dicts (`Any`).  A dict slot holding
Python `None` is represented as `Option Val` being `none` at the use sites. -/
inductive Val where
  | time (t : Int)
  | str (s : String)
  | int (n : Int)
  | bool (b : Bool)
deriving DecidableEq, Repr

/-- Modelled from the spec: const.py is not under src/.  The string values of
the dict-key constants imported by router.py are immaterial to every claim;
they only need to be pairwise distinct, so each is modelled by its own name. -/
def DEVICE_ATTRIBUTE_CONNECTION_TIME : String := "connection_time"

def DEVICE_ATTRIBUTE_CONNECTION_TYPE : String := "connection_type"

def DEVICE_ATTRIBUTE_GUEST : String := "guest"

def DEVICE_ATTRIBUTE_INTERNET : String := "internet"

def DEVICE_ATTRIBUTE_INTERNET_MODE : String := "internet_mode"

def DEVICE_ATTRIBUTE_IP_TYPE : String := "ip_type"

def DEVICE_ATTRIBUTE_LAST_ACTIVITY : String := "last_activity"

def DEVICE_ATTRIBUTE_RSSI : String := "rssi"

def DEVICE_ATTRIBUTE_RX_SPEED : String := "rx_speed"

def DEVICE_ATTRIBUTE_TX_SPEED : String := "tx_speed"

/-- Modelled from the spec: const.py is not under src/.  DEVICE_ATTRIBUTES is
taken as the list of the ten device-attribute keys that router.py imports from
const alongside it and writes into `_extra_state_attributes`; the reported
offline branch of `ARConnectedDevice.update` guards the last-activity key
against `None`, which can only arise because the reset loop over
DEVICE_ATTRIBUTES nulls that key, confirming its membership. -/
def DEVICE_ATTRIBUTES : List String :=
  [DEVICE_ATTRIBUTE_CONNECTION_TIME, DEVICE_ATTRIBUTE_CONNECTION_TYPE,
   DEVICE_ATTRIBUTE_GUEST, DEVICE_ATTRIBUTE_INTERNET,
   DEVICE_ATTRIBUTE_INTERNET_MODE, DEVICE_ATTRIBUTE_IP_TYPE,
   DEVICE_ATTRIBUTE_LAST_ACTIVITY, DEVICE_ATTRIBUTE_RSSI,
   DEVICE_ATTRIBUTE_RX_SPEED, DEVICE_ATTRIBUTE_TX_SPEED]

/-- Modelled from the spec: const.py is not under src/.  Connection-type labels
(CONNECTION_TYPE_WIRED and friends); the exact strings are immaterial. -/
def CONNECTION_TYPE_WIRED : String := "wired"

def CONNECTION_TYPE_2G : String := "2.4 GHz"

def CONNECTION_TYPE_5G : String := "5 GHz"

def CONNECTION_TYPE_5G2 : String := "5 GHz-2"

def CONNECTION_TYPE_6G : String := "6 GHz"

def CONNECTION_TYPE_UNKNOWN : String := "unknown"

/-- Modelled from the spec: const.py is not under src/.  Default option values;
the claims depend only on the defaulting behaviour, not on these numbers. -/
def DEFAULT_CONSIDER_HOME : Int := 45

def DEFAULT_SCAN_INTERVAL : Int := 30

def DEFAULT_LATEST_CONNECTED : Nat := 5

def DEFAULT_TRACK_DEVICES : Bool := true

/-- The `self.identity` dict of `ARConnectedDevice` (keys MAC, IP, NAME,
connection type, guest, connected), embedded as a record. -/
structure Identity where
  mac : String
  ip : Option String
  name : Option String
  connection_type : Option String
  guest : Bool
  connected : Option Int
deriving DecidableEq, Repr

/-- The vendor library's `ConnectedDevice` dataclass: only the fields that
`ARConnectedDevice.update` reads.  Fields the integration merely copies into
its attribute dict are kept as opaque optional values. -/
structure ConnectedDevice where
  name : Option String
  online : Bool
  ip : Option String
  connected_since : Option Int
  connection_type : Int
  guest : Bool
  internet_mode : Option Val
  internet_state : Option Val
  ip_method : Option Val
  rssi : Option Val
  rx_speed : Option Val
  tx_speed : Option Val
deriving DecidableEq, Repr

/-- Python dict assignment `d[k] = v`: replace in place or append. -/
def dictSet {V : Type} (l : List (String × V)) (k : String) (v : V) :
    List (String × V) :=
  match l with
  | [] => [(k, v)]
  | (k0, v0) :: rest =>
    if k0 = k then (k0, v) :: rest else (k0, v0) :: dictSet rest k v

/-- Python dict lookup `d.get(k)` / `k in d` combined: `none` when the key is
absent, `some v` when present with value `v`. -/
def dictGet {V : Type} (l : List (String × V)) (k : String) : Option V :=
  match l with
  | [] => none
  | (k0, v0) :: rest => if k0 = k then some v0 else dictGet rest k

/-- Python `d.pop(k, None)`: the removed value (if any) and the remaining dict. -/
def dictPop {V : Type} (l : List (String × V)) (k : String) :
    Option V × List (String × V) :=
  match l with
  | [] => (none, [])
  | (k0, v0) :: rest =>
    if k0 = k then (some v0, rest)
    else
      let r := dictPop rest k
      (r.1, (k0, v0) :: r.2)

/-- Attribute dict of a tracked device (`_extra_state_attributes`): values are
`Option Val`, with `none` standing for a slot assigned Python `None`. -/
abbrev Attrs : Type := List (String × Option Val)

/-- The reset loop `for el in DEVICE_ATTRIBUTES: attrs[el] = None`. -/
def resetAttrs (a : Attrs) : Attrs :=
  DEVICE_ATTRIBUTES.foldl (fun acc k => dictSet acc k none) a

/-- State of one `ARConnectedDevice`. -/
structure ARConnectedDevice where
  mac : String
  name : Option String
  ip : Option String
  identity : Identity
  connected : Bool
  extra : Attrs
deriving DecidableEq, Repr

/-- `ARConnectedDevice.__init__`. -/
def ARConnectedDevice.init (mac : String) (name : Option String) :
    ARConnectedDevice :=
  { mac := mac
    name := name
    ip := none
    identity :=
      { mac := mac, ip := none, name := name, connection_type := none
        guest := false, connected := none }
    connected := false
    extra := [] }

/-- Events emitted by `ARConnectedDevice.update` through its callbacks. -/
inductive EventName where
  | device_connected
  | device_disconnected
  | device_reconnected
deriving DecidableEq, Repr

/-- A callback invocation recorded by the embedding: `fired` is `event_call`
(an HA bus event), `connectedCall` is `connected_call`. -/
inductive Event where
  | fired (e : EventName) (id : Identity)
  | connectedCall (id : Identity)
deriving DecidableEq, Repr

/-- The `con_type` number-to-label mapping in the online branch. -/
def conTypeLabel (c : Int) : String :=
  if c = 0 then CONNECTION_TYPE_WIRED
  else if c = 1 then CONNECTION_TYPE_2G
  else if c = 2 then CONNECTION_TYPE_5G
  else if c = 3 then CONNECTION_TYPE_5G2
  else if c = 4 then CONNECTION_TYPE_6G
  else CONNECTION_TYPE_UNKNOWN

/-- The sequence of attribute-dict writes performed by the online branch. -/
def onlineAttrs (a : Attrs) (info : ConnectedDevice) (now : Int) : Attrs :=
  let a := dictSet a DEVICE_ATTRIBUTE_CONNECTION_TIME
    (info.connected_since.map Val.time)
  let a := dictSet a DEVICE_ATTRIBUTE_CONNECTION_TYPE
    (some (Val.str (conTypeLabel info.connection_type)))
  let a := dictSet a DEVICE_ATTRIBUTE_GUEST (some (Val.bool info.guest))
  let a := dictSet a DEVICE_ATTRIBUTE_INTERNET_MODE info.internet_mode
  let a := dictSet a DEVICE_ATTRIBUTE_INTERNET info.internet_state
  let a := dictSet a DEVICE_ATTRIBUTE_IP_TYPE info.ip_method
  let a := dictSet a DEVICE_ATTRIBUTE_LAST_ACTIVITY (some (Val.time now))
  let a := dictSet a DEVICE_ATTRIBUTE_RSSI info.rssi
  let a := dictSet a DEVICE_ATTRIBUTE_RX_SPEED info.rx_speed
  dictSet a DEVICE_ATTRIBUTE_TX_SPEED info.tx_speed

/-- ARConnectedDevice.update (router.py lines 212-350), with `dev_info` being
the polled info (`none` when the device is absent from the poll),
`consider_home` the grace period and `now` the poll instant.  Returns the new
device state and the callback invocations in order, or `none` where the Python
raises: reading a nulled or missing last-activity slot in the absent branch
(`utcnow() - None` is a TypeError, a missing key a KeyError). -/
def ARConnectedDevice.update (d : ARConnectedDevice) (now : Int)
    (dev_info : Option ConnectedDevice) (consider_home : Int) :
    Option (ARConnectedDevice × List Event) :=
  match dev_info with
  | some info =>
    -- self._name = dev_info.name; self.identity[NAME] = self._name
    let d1 : ARConnectedDevice :=
      { d with name := info.name, identity := { d.identity with name := info.name } }
    if info.online then
      -- identity[CONNECTED] = connected_since or identity[CONNECTED] or utcnow
      let ident : Identity :=
        { d1.identity with
            ip := info.ip
            connected := some ((info.connected_since.or d1.identity.connected).getD now)
            connection_type := some (conTypeLabel info.connection_type)
            guest := info.guest }
      let evs : List Event :=
        if d1.connected = false then
          [Event.fired EventName.device_reconnected ident, Event.connectedCall ident]
        else []
      some
        ({ d1 with
            ip := info.ip
            identity := ident
            connected := true
            extra := onlineAttrs d1.extra info now }, evs)
    else
      match dictGet d1.extra DEVICE_ATTRIBUTE_LAST_ACTIVITY with
      | some (some (Val.time last)) =>
        if now - last > consider_home then
          let evs : List Event :=
            if d1.connected = true then
              [Event.fired EventName.device_disconnected d1.identity]
            else []
          some
            ({ d1 with connected := false, ip := none, extra := resetAttrs d1.extra },
             evs)
        else some (d1, [])
      | some (some _) => none
      | _ => some (d1, [])
  | none =>
    if d.connected then
      match dictGet d.extra DEVICE_ATTRIBUTE_LAST_ACTIVITY with
      | some (some (Val.time last)) =>
        let stillHome : Bool := now - last < consider_home
        let evs : List Event :=
          if stillHome then []
          else [Event.fired EventName.device_disconnected d.identity]
        some
          ({ d with connected := stillHome, ip := none, extra := resetAttrs d.extra },
           evs)
      | _ => none
    else some (d, [])

/-- Python `list.remove(x)`: drop the first element equal to `x` (no-op here if
absent; the call sites only remove elements taken from the list). -/
def listRemoveFirst (l : List Identity) (x : Identity) : List Identity :=
  match l with
  | [] => []
  | y :: ys => if y = x then ys else y :: listRemoveFirst ys x

/-- CPython semantics of `for device in lst: if device[MAC] == mac:
lst.remove(device)` in `connected_device`: the hidden iterator index advances
even when the list shrinks.  `fuel` bounds the iteration; it is called with
`fuel = lst.length`, which the invariant `lst.length - i ≤ fuel` shows is
enough, so the fuel-exhausted arm is never taken. -/
def pyForRemoveAux (mac : String) : Nat → List Identity → Nat → List Identity
  | 0, l, _ => l
  | fuel + 1, l, i =>
    match l.get? i with
    | none => l
    | some x =>
      if x.mac = mac then pyForRemoveAux mac fuel (listRemoveFirst l x) (i + 1)
      else pyForRemoveAux mac fuel l (i + 1)

/-- The whole removal loop of `connected_device`. -/
def pyForRemove (mac : String) (l : List Identity) : List Identity :=
  pyForRemoveAux mac l.length l 0

/-- Comparison used to model `list.sort(key=self.connected_device_time)`, the
key being `identity.get(CONNECTED)`, an optional timestamp.  Python would
raise a TypeError when comparing `None` with a datetime; the embedding totalises
the order with `none` smallest, and the theorems about `connected_device`
restrict to lists whose entries all carry a timestamp, where no such comparison
arises and a stable sort is uniquely determined by this order. -/
def timeLE : Option Int → Option Int → Bool
  | none, _ => true
  | some _, none => false
  | some a, some b => a ≤ b

/-- Order on identities induced by `connected_device_time` (router.py 677-680). -/
def connRel (a b : Identity) : Prop := timeLE a.connected b.connected = true

instance : DecidableRel connRel := fun a b => by
  unfold connRel
  infer_instance

instance : IsTotal Identity connRel := by
  constructor
  intro a b
  unfold connRel timeLE
  rcases a.connected with _ | x <;> rcases b.connected with _ | y <;> simp
  omega

instance : IsTrans Identity connRel := by
  constructor
  intro a b c
  unfold connRel timeLE
  rcases a.connected with _ | x <;> rcases b.connected with _ | y <;>
    rcases c.connected with _ | z <;> simp
  omega

/-- The trailing `while len(lst) > limit: lst.pop(0)` loop. -/
def trimFront (limit : Nat) : List Identity → List Identity
  | [] => []
  | x :: xs => if xs.length + 1 > limit then trimFront limit xs else x :: xs

/-- The `_latest_connected` timestamp and `_latest_connected_list` attributes
of `ARDevice`, the state `connected_device` operates on. -/
structure LatestState where
  latest_connected : Option Int
  latest_connected_list : List Identity
deriving DecidableEq, Repr

/-- The list as it stands after removal, sort and append, before the size
trim: the sort happens before the new identity is appended. -/
def preTrimList (st : LatestState) (identity : Identity) : List Identity :=
  (List.insertionSort connRel (pyForRemove identity.mac st.latest_connected_list))
    ++ [identity]

/-- ARDevice.connected_device (router.py lines 682-711).  `limit` is
`options.get(CONF_LATEST_CONNECTED, DEFAULT_LATEST_CONNECTED)`.  Returns `none`
where the Python raises IndexError: `lst[-1]` on an empty list, reachable only
when `limit = 0` trims everything away. -/
def connected_device (limit : Nat) (st : LatestState) (identity : Identity) :
    Option LatestState :=
  if identity.mac = "" then some st
  else
    let l := trimFront limit (preTrimList st identity)
    match l.getLast? with
    | none => none
    | some lastEntry =>
      some { latest_connected := lastEntry.connected, latest_connected_list := l }

/-- Options dict of the config entry, restricted to the keys router.py reads.
Each field is `none` when the key is absent, so `options.get(key, default)`
becomes `getD`.  `intervals` models the CONF_INTERVAL + sensor_type keys. -/
structure Options where
  consider_home : Option Int := none
  track_devices : Option Bool := none
  latest_connected : Option Nat := none
  interval_devices : Option Int := none
  scan_interval : Option Int := none
  split_intervals : Option Bool := none
  intervals : List (String × Int) := []
deriving DecidableEq, Repr

/-- `options.get(CONF_CONSIDER_HOME, DEFAULT_CONSIDER_HOME)`. -/
def optConsiderHome (o : Options) : Int :=
  o.consider_home.getD DEFAULT_CONSIDER_HOME

/-- `options.get(CONF_LATEST_CONNECTED, DEFAULT_LATEST_CONNECTED)`. -/
def optLatestConnected (o : Options) : Nat :=
  o.latest_connected.getD DEFAULT_LATEST_CONNECTED

/-- `options.get(CONF_INTERVAL_DEVICES, DEFAULT_SCAN_INTERVAL)`. -/
def optIntervalDevices (o : Options) : Int :=
  o.interval_devices.getD DEFAULT_SCAN_INTERVAL

/-- `options.get(CONF_SCAN_INTERVAL, DEFAULT_SCAN_INTERVAL)`. -/
def optScanInterval (o : Options) : Int :=
  o.scan_interval.getD DEFAULT_SCAN_INTERVAL

/-- State of `ARSensorHandler` (the four stored connected-devices values). -/
structure ARSensorHandler where
  connected_devices : Nat
  connected_devices_list : List Identity
  latest_connected : Option Int
  latest_connected_list : List Identity
deriving DecidableEq, Repr

/-- `ARSensorHandler.__init__` (the four tracked values start out empty). -/
def ARSensorHandler.init : ARSensorHandler :=
  { connected_devices := 0
    connected_devices_list := []
    latest_connected := none
    latest_connected_list := [] }

/-- ARSensorHandler.update_device_count (router.py lines 117-137): skip and
report `false` when nothing changed, otherwise store all four arguments and
report `true`. -/
def ARSensorHandler.update_device_count (h : ARSensorHandler) (conn_devices : Nat)
    (list_devices : List Identity) (latest_connected : Option Int)
    (latest_connected_list : List Identity) : ARSensorHandler × Bool :=
  if h.connected_devices = conn_devices
      ∧ h.connected_devices_list = list_devices
      ∧ h.latest_connected = latest_connected
      ∧ h.latest_connected_list = latest_connected_list then
    (h, false)
  else
    ({ connected_devices := conn_devices
       connected_devices_list := list_devices
       latest_connected := latest_connected
       latest_connected_list := latest_connected_list }, true)

/-- An HA bus event fired through `fire_event`. -/
abbrev FiredEv : Type := EventName × Identity

/-- Dispatcher signals `update_devices` can send. -/
inductive Signal where
  | device_update
  | device_new
deriving DecidableEq, Repr

/-- Connectivity log lines of `update_devices` (debug tracing is omitted,
only the error/info pair tied to the connect-error flag is modelled). -/
inductive LogMsg where
  | errorConnecting
  | infoReconnected
deriving DecidableEq, Repr

/-- A callback registered through `async_on_close`; setup registers the
cancellation handle of the device-tracker timer, tagged by its interval. -/
inductive CloseCb where
  | cancelDeviceTimer (seconds : Int)
deriving DecidableEq, Repr

/-- State of `ARDevice` (the attributes the embedded methods touch). -/
structure RouterState where
  conf_name : Option String
  devices : List (String × ARConnectedDevice)
  connected_devices : Nat
  connected_devices_list : List Identity
  latest : LatestState
  connect_error : Bool
  sensor_handler : Option ARSensorHandler
  devices_coordinator : Bool
  on_close : List CloseCb
deriving DecidableEq, Repr

/-- The first reconciliation loop of `update_devices` (lines 555-562): walk the
previously tracked devices in dict order, popping each mac from the fresh
snapshot and updating the device with the popped info (or its absence).
Returns the updated devices, the callback invocations in order, and the
remaining (untracked) part of the snapshot; `none` when some update raises. -/
def reconcileOld (now : Int) (consider_home : Int) :
    List (String × ARConnectedDevice) → List (String × ConnectedDevice) →
    Option (List (String × ARConnectedDevice) × List Event × List (String × ConnectedDevice))
  | [], wrt => some ([], [], wrt)
  | (mac, d) :: rest, wrt =>
    let popped := dictPop wrt mac
    match d.update now popped.1 consider_home with
    | none => none
    | some (d1, evs) =>
      match reconcileOld now consider_home rest popped.2 with
      | none => none
      | some (rest1, evs1, rem) => some ((mac, d1) :: rest1, evs ++ evs1, rem)

/-- The second loop of `update_devices` (lines 566-575): each remaining polled
mac becomes a fresh `ARConnectedDevice` updated with its info; `consider_home`
is left at its default 0 there. -/
def addNew (now : Int) :
    List (String × ConnectedDevice) →
    Option (List (String × ARConnectedDevice) × List Event)
  | [] => some ([], [])
  | (mac, info) :: rest =>
    match (ARConnectedDevice.init mac none).update now (some info) 0 with
    | none => none
    | some (d, evs) =>
      match addNew now rest with
      | none => none
      | some (rest1, evs1) => some ((mac, d) :: rest1, evs ++ evs1)

/-- Interpret the callback invocations recorded by the device updates, in
order: `connected_call` runs `connected_device` on the latest-connected state,
`event_call` fires a bus event.  `none` propagates a raise from
`connected_device`. -/
def applyEvents (limit : Nat) :
    LatestState → List Event → Option (LatestState × List FiredEv)
  | ls, [] => some (ls, [])
  | ls, Event.fired e id :: rest =>
    match applyEvents limit ls rest with
    | none => none
    | some (ls1, f) => some (ls1, (e, id) :: f)
  | ls, Event.connectedCall id :: rest =>
    match connected_device limit ls id with
    | none => none
    | some ls1 => applyEvents limit ls1 rest

/-- The counting loop over `self._devices` (lines 584-589): increment the
counter and append the identity for every connected device. -/
def countConnected (devs : List (String × ARConnectedDevice)) :
    Nat × List Identity :=
  devs.foldl
    (fun acc p =>
      if p.2.connected then (acc.1 + 1, acc.2 ++ [p.2.identity]) else acc)
    (0, [])

/-- The `{format_mac(mac): dev for mac, dev in api_devices.items()}` dict
comprehension; later duplicates overwrite in place. -/
def buildWrt (fmac : String → String) (api : List (String × ConnectedDevice)) :
    List (String × ConnectedDevice) :=
  api.foldl (fun acc p => dictSet acc (fmac p.1) p.2) []

/-- `_update_unpolled_sensors` (lines 624-638): push the four values into the
sensor handler and report whether the devices coordinator must refresh. -/
def update_unpolled (st : RouterState) : RouterState × Bool :=
  match st.sensor_handler with
  | none => (st, false)
  | some h =>
    if st.devices_coordinator then
      let r := h.update_device_count st.connected_devices
        st.connected_devices_list st.latest.latest_connected
        st.latest.latest_connected_list
      ({ st with sensor_handler := some r.1 }, r.2)
    else (st, false)

/-- Everything `update_devices` produces besides the new state. -/
structure UpdateOutput where
  state : RouterState
  fired : List FiredEv
  signals : List Signal
  logs : List LogMsg
  refreshed : Bool
deriving DecidableEq, Repr

/-- ARDevice.update_devices (router.py lines 528-594).  `api` is the result of
`bridge.async_get_connected_devices()`: `Except.error` when that call raises
UpdateFailed.  `fmac` abstracts the host's `format_mac` normaliser.  Returns
`none` where the Python lets an exception escape (a TypeError inside a device
update or an IndexError inside `connected_device`). -/
def update_devices (opts : Options) (fmac : String → String) (st : RouterState)
    (api : Except Unit (List (String × ConnectedDevice))) (now : Int) :
    Option UpdateOutput :=
  match api with
  | Except.error _ =>
    if st.connect_error then
      some { state := st, fired := [], signals := [], logs := [], refreshed := false }
    else
      some { state := { st with connect_error := true }, fired := [], signals := []
             logs := [LogMsg.errorConnecting], refreshed := false }
  | Except.ok api_devices =>
    let logs := if st.connect_error then [LogMsg.infoReconnected] else []
    let consider_home := optConsiderHome opts
    let wrt := buildWrt fmac api_devices
    match reconcileOld now consider_home st.devices wrt with
    | none => none
    | some (updOld, evs1, wrtRem) =>
      match addNew now wrtRem with
      | none => none
      | some (newDevs, evs2) =>
        let new_device : Bool := ¬ wrtRem.isEmpty
        match applyEvents (optLatestConnected opts) st.latest (evs1 ++ evs2) with
        | none => none
        | some (latest1, firedCalls) =>
          let connectedFired : List FiredEv :=
            newDevs.map (fun p => (EventName.device_connected, p.2.identity))
          let devices1 :=
            newDevs.foldl (fun acc p => dictSet acc p.1 p.2) updOld
          let counted := countConnected devices1
          let st1 : RouterState :=
            { st with
                devices := devices1
                connected_devices := counted.1
                connected_devices_list := counted.2
                latest := latest1
                connect_error := false }
          let signals :=
            Signal.device_update :: (if new_device then [Signal.device_new] else [])
          let upd := update_unpolled st1
          some { state := upd.1, fired := firedCalls ++ connectedFired
                 signals := signals, logs := logs, refreshed := upd.2 }

/-- Modelled from the spec: const.py is not under src/.  Sensor-type keys and
the connected-devices sensor list; exact strings immaterial. -/
def DEVICES : String := "devices"

def FIRMWARE : String := "firmware"

def CONF_INTERVAL : String := "interval_"

def SENSORS_CONNECTED_DEVICES : List String :=
  ["number", "devices", "latest", "latest_time"]

def DEFAULT_INTERVAL_FIRMWARE : Int := 21600

def DOMAIN : String := "asusrouter"

def TRACKER_DOMAIN : String := "device_tracker"

/-- `options.get(CONF_SPLIT_INTERVALS, DEFAULT_SPLIT_INTERVALS)`. -/
def optSplitIntervals (o : Options) : Bool :=
  o.split_intervals.getD false

/-- ARSensorHandler.get_coordinator (router.py lines 139-185), reduced to its
decision content: whether a method exists (else RuntimeError) and which update
interval the coordinator gets (`none` when the sensor type is not polled). -/
def get_coordinator (opts : Options) (sensor_type : String) (hasMethod : Bool) :
    Except Unit (Option Int) :=
  let should_poll := sensor_type ≠ DEVICES
  if sensor_type = DEVICES ∨ hasMethod then
    let interval : Int :=
      if sensor_type = FIRMWARE then
        (dictGet opts.intervals (CONF_INTERVAL ++ sensor_type)).getD
          DEFAULT_INTERVAL_FIRMWARE
      else
        if optSplitIntervals opts then
          (dictGet opts.intervals (CONF_INTERVAL ++ sensor_type)).getD
            (optScanInterval opts)
        else optScanInterval opts
    Except.ok (if should_poll then some interval else none)
  else Except.error ()

/-- An entity-registry entry (the fields the setup migration loop reads). -/
structure RegEntry where
  domain : String
  entity_id : String
  unique_id : String
  original_name : Option String
deriving DecidableEq, Repr

/-- Host API calls performed during setup, recorded as a trace. -/
inductive HostEffect where
  | serviceRegistered (name : String)
  | entityRemoved (entity_id : String)
  | entityUpdated (entity_id : String) (new_unique : String)
  | firedEvent (e : FiredEv)
  | dispatched (s : Signal)
  | logged (m : LogMsg)
  | coordinatorInit (sensor_type : String) (interval : Option Int)
  | coordinatorRefreshed (sensor_type : String)
  | timerScheduled (seconds : Int)
deriving DecidableEq, Repr

/-- The registry query `async_get_entity_id(DOMAIN, TRACKER_DOMAIN, mac)`. -/
def regGetEntityId (reg : List RegEntry) (mac : String) : Option String :=
  (reg.find? fun e => e.domain = TRACKER_DOMAIN ∧ e.unique_id = mac).map
    (fun e => e.entity_id)

/-- The registry mutation `async_remove(entity_id)`. -/
def regRemove (reg : List RegEntry) (entity_id : String) : List RegEntry :=
  reg.filter (fun e => e.entity_id ≠ entity_id)

/-- The registry mutation `async_update_entity(entity_id, new_unique_id)`. -/
def regUpdateUnique (reg : List RegEntry) (entity_id new_unique : String) :
    List RegEntry :=
  reg.map fun e =>
    if e.entity_id = entity_id then { e with unique_id := new_unique } else e

/-- The tracked-entities loading loop of setup (router.py lines 472-500):
walk the config entry's registry entries, migrate badly formatted unique ids,
and seed `_devices` with one `ARConnectedDevice` per tracker entry. -/
def loadTracked (fmac : String → String) :
    List RegEntry → List RegEntry → List (String × ARConnectedDevice) →
    List RegEntry × List (String × ARConnectedDevice) × List HostEffect
  | reg, [], devs => (reg, devs, [])
  | reg, e :: rest, devs =>
    if e.domain ≠ TRACKER_DOMAIN then loadTracked fmac reg rest devs
    else
      let device_mac := fmac e.unique_id
      if device_mac ≠ e.unique_id then
        match regGetEntityId reg device_mac with
        | some _ =>
          let r := loadTracked fmac (regRemove reg e.entity_id) rest devs
          (r.1, r.2.1, HostEffect.entityRemoved e.entity_id :: r.2.2)
        | none =>
          let r := loadTracked fmac (regUpdateUnique reg e.entity_id device_mac)
            rest (dictSet devs device_mac (ARConnectedDevice.init device_mac e.original_name))
          (r.1, r.2.1, HostEffect.entityUpdated e.entity_id device_mac :: r.2.2)
      else
        loadTracked fmac reg rest
          (dictSet devs device_mac (ARConnectedDevice.init device_mac e.original_name))

/-- The coordinator-creation loop of `init_sensors_coordinator` (lines
613-622): skip sensor types without sensors, create a coordinator for the
rest (propagating the RuntimeError of `get_coordinator`), and report whether
the DEVICES coordinator was created. -/
def initSensorsLoop (opts : Options) :
    List (String × Bool × List String) → Except Unit (List HostEffect × Bool)
  | [] => Except.ok ([], false)
  | (sensor_type, hasMethod, sensors) :: rest =>
    if sensors.isEmpty then initSensorsLoop opts rest
    else
      match get_coordinator opts sensor_type hasMethod with
      | Except.error e => Except.error e
      | Except.ok interval =>
        match initSensorsLoop opts rest with
        | Except.error e => Except.error e
        | Except.ok (effs, flag) =>
          Except.ok (HostEffect.coordinatorInit sensor_type interval :: effs,
            flag || (sensor_type == DEVICES))

/-- ARDevice.init_sensors_coordinator (router.py lines 596-622): a no-op when
the handler already exists; otherwise create the handler seeded through
`update_device_count`, add the DEVICES pseudo-sensor, and create coordinators. -/
def init_sensors (opts : Options) (avail : List (String × Bool × List String))
    (st : RouterState) : Except Unit (RouterState × List HostEffect) :=
  match st.sensor_handler with
  | some _ => Except.ok (st, [])
  | none =>
    let seeded := (ARSensorHandler.init.update_device_count st.connected_devices
      st.connected_devices_list st.latest.latest_connected
      st.latest.latest_connected_list).1
    let avail1 := dictSet avail DEVICES (false, SENSORS_CONNECTED_DEVICES)
    match initSensorsLoop opts avail1 with
    | Except.error e => Except.error e
    | Except.ok (effs, flag) =>
      Except.ok
        ({ st with sensor_handler := some seeded, devices_coordinator := flag },
         effs)

/-- Host-supplied inputs of one `setup` run. -/
structure SetupEnv where
  connect_ok : Bool
  is_connected : Bool
  identity_model : Option String
  registry : List RegEntry
  track_entries : List RegEntry
  api : Except Unit (List (String × ConnectedDevice))
  available_sensors : List (String × Bool × List String)
  now : Int
deriving Repr

/-- How setup can fail: ConfigEntryNotReady, or an uncaught exception from the
nested update. -/
inductive SetupErr where
  | notReady
  | raised
deriving DecidableEq, Repr

/-- ARDevice.setup (router.py lines 425-518): connect (or bail out), register
the three services, resolve the configured name, load tracked entities from
the registry, run the first `update_devices`, initialise the sensor
coordinators, and finally schedule `update_all` at the configured
device-scan interval, registering its cancellation handle on close. -/
def setup (opts : Options) (fmac : String → String) (env : SetupEnv)
    (st : RouterState) : Except SetupErr (RouterState × List HostEffect) :=
  if ¬ env.connect_ok then Except.error SetupErr.notReady
  else if ¬ env.is_connected then Except.error SetupErr.notReady
  else
    let effs0 : List HostEffect :=
      [HostEffect.serviceRegistered "adjust_wlan",
       HostEffect.serviceRegistered "device_internet_access",
       HostEffect.serviceRegistered "remove_trackers"]
    let conf_name :=
      match env.identity_model with
      | some m =>
        if st.conf_name = none ∨ st.conf_name = some "" then some m else st.conf_name
      | none => st.conf_name
    let loaded := loadTracked fmac env.registry env.track_entries st.devices
    let st1 : RouterState := { st with conf_name := conf_name, devices := loaded.2.1 }
    match update_devices opts fmac st1 env.api env.now with
    | none => Except.error SetupErr.raised
    | some out =>
      let updEffs : List HostEffect :=
        out.fired.map HostEffect.firedEvent ++ out.signals.map HostEffect.dispatched
          ++ out.logs.map HostEffect.logged
          ++ (if out.refreshed then [HostEffect.coordinatorRefreshed DEVICES] else [])
      match init_sensors opts env.available_sensors out.state with
      | Except.error _ => Except.error SetupErr.raised
      | Except.ok (st2, sensEffs) =>
        let interval := optIntervalDevices opts
        let st3 : RouterState :=
          { st2 with on_close := st2.on_close ++ [CloseCb.cancelDeviceTimer interval] }
        Except.ok
          (st3, effs0 ++ loaded.2.2 ++ updEffs ++ sensEffs
            ++ [HostEffect.timerScheduled interval])

/-- Whether some bus event with the given name is among the recorded
invocations of `event_call`. -/
def hasFired (e : EventName) (evs : List Event) : Bool :=
  evs.any fun ev =>
    match ev with
    | Event.fired e1 _ => e1 == e
    | Event.connectedCall _ => false

/-- A tracked device currently marked connected whose recorded last activity
is the instant 0, as `ARConnectedDevice.update` leaves it after an online poll
at that instant (only the fields the examined branches read are populated). -/
def wDev : ARConnectedDevice :=
  { mac := "aa"
    name := none
    ip := some "10.0.0.7"
    identity :=
      { mac := "aa", ip := some "10.0.0.7", name := none, connection_type := none
        guest := false, connected := some 0 }
    connected := true
    extra := [(DEVICE_ATTRIBUTE_LAST_ACTIVITY, some (Val.time 0))] }

/-- A poll record reporting the device offline. -/
def wInfoOff : ConnectedDevice :=
  { name := some "laptop", online := false, ip := none, connected_since := none
    connection_type := 0, guest := false, internet_mode := none
    internet_state := none, ip_method := none, rssi := none, rx_speed := none
    tx_speed := none }

/-- A poll record reporting the device online since instant 3. -/
def wInfoOn : ConnectedDevice :=
  { name := some "laptop", online := true, ip := some "10.0.0.2"
    connected_since := some 3, connection_type := 1, guest := false
    internet_mode := none, internet_state := none, ip_method := none
    rssi := none, rx_speed := none, tx_speed := none }

/-- Identity of a device whose connection time is the instant 10. -/
def cIdA : Identity :=
  { mac := "aa", ip := none, name := none, connection_type := none
    guest := false, connected := some 10 }

/-- Identity of a device whose connection time is the earlier instant 5 (a
router can report a `connected_since` lying before the times already in the
latest-connected list). -/
def cIdB : Identity :=
  { mac := "bb", ip := none, name := none, connection_type := none
    guest := false, connected := some 5 }

/-- Latest-connected state holding only the instant-10 device. -/
def cLatest : LatestState :=
  { latest_connected := some 10, latest_connected_list := [cIdA] }

/-- Result of `ARConnectedDevice.update` on `wDev` for the online poll at
instant 3 (total by construction; the fallback is never taken). -/
def w5res : ARConnectedDevice × List Event :=
  (wDev.update 3 (some wInfoOn) 45).getD (wDev, [])

/-- Router state used to exercise `update_devices`: one tracked device. -/
def w4st : RouterState :=
  { conf_name := none
    devices := [("aa", wDev)]
    connected_devices := 1
    connected_devices_list := [wDev.identity]
    latest := { latest_connected := some 0, latest_connected_list := [wDev.identity] }
    connect_error := false
    sensor_handler := none
    devices_coordinator := false
    on_close := [] }

/-- A poll snapshot holding the tracked mac and one unseen mac. -/
def w4api : List (String × ConnectedDevice) := [("aa", wInfoOn), ("bb", wInfoOn)]

/-- Result of `update_devices` on that scenario (total by construction; the
fallback is never taken). -/
def w4out : UpdateOutput :=
  (update_devices {} (fun s => s) w4st (Except.ok w4api) 7).getD
    { state := w4st, fired := [], signals := [], logs := [], refreshed := false }

/-- Setup environment with a reachable router and an empty registry. -/
def w7env : SetupEnv :=
  { connect_ok := true
    is_connected := true
    identity_model := some "RT-AX88U"
    registry := []
    track_entries := []
    api := Except.ok []
    available_sensors := []
    now := 0 }

/-- Options choosing a 20-second device-scan interval. -/
def w7opts : Options := { interval_devices := some 20 }

/-- Initial router state for the setup run. -/
def w7st : RouterState :=
  { conf_name := none
    devices := []
    connected_devices := 0
    connected_devices_list := []
    latest := { latest_connected := none, latest_connected_list := [] }
    connect_error := false
    sensor_handler := none
    devices_coordinator := false
    on_close := [] }

/-- Result of `setup` on that environment (total by construction; the fallback
is never taken). -/
def w7res : RouterState × List HostEffect :=
  (setup w7opts (fun s => s) w7env w7st).toOption.getD (w7st, [])

/-- Result of `connected_device` with bound 2 on `cLatest` and `cIdB` (total
by construction; the fallback is never taken). -/
def w2st1 : LatestState :=
  (connected_device 2 cLatest cIdB).getD cLatest

theorem dictGet_dictSet_self {V : Type} (l : List (String × V)) (k : String) (v : V) :
    dictGet (dictSet l k v) k = some v := by
  induction l with
  | nil => simp [dictSet, dictGet]
  | cons p rest ih =>
    by_cases hk : p.1 = k <;> simp [dictSet, dictGet, hk, ih]

theorem dictGet_dictSet_ne {V : Type} (l : List (String × V)) (k k1 : String) (v : V)
    (h : k1 ≠ k) : dictGet (dictSet l k v) k1 = dictGet l k1 := by
  induction l with
  | nil =>
    simp only [dictSet, dictGet]
    simp [Ne.symm h]
  | cons p rest ih =>
    by_cases hk : p.1 = k
    · subst hk
      simp [dictSet, dictGet, Ne.symm h]
    · by_cases hk1 : p.1 = k1 <;> simp [dictSet, dictGet, hk, hk1, ih, h]

theorem dictPop_fst {V : Type} (l : List (String × V)) (k : String) :
    (dictPop l k).1 = dictGet l k := by
  induction l with
  | nil => simp [dictPop, dictGet]
  | cons p rest ih =>
    by_cases hk : p.1 = k <;> simp [dictPop, dictGet, hk, ih]

theorem dictGet_dictPop_ne {V : Type} (l : List (String × V)) (k k1 : String)
    (h : k1 ≠ k) : dictGet (dictPop l k).2 k1 = dictGet l k1 := by
  induction l with
  | nil => simp [dictPop, dictGet]
  | cons p rest ih =>
    by_cases hk : p.1 = k
    · subst hk
      simp [dictPop, dictGet, Ne.symm h]
    · by_cases hk1 : p.1 = k1 <;> simp [dictPop, dictGet, hk, hk1, ih, h]

theorem dictPop_sublist {V : Type} (l : List (String × V)) (k : String) :
    (dictPop l k).2.Sublist l := by
  induction l with
  | nil => simp [dictPop]
  | cons p rest ih =>
    by_cases hk : p.1 = k
    · simp [dictPop, hk]
    · simpa [dictPop, hk] using ih.cons₂ p

theorem dictPop_eq_filter {V : Type} (l : List (String × V)) (k : String)
    (h : (l.map Prod.fst).Nodup) :
    (dictPop l k).2 = l.filter (fun p => decide (p.1 ≠ k)) := by
  induction l with
  | nil => simp [dictPop]
  | cons p rest ih =>
    simp only [List.map_cons, List.nodup_cons] at h
    by_cases hk : p.1 = k
    · subst hk
      have hrest : rest.filter (fun q => !decide (q.1 = p.1)) = rest := by
        apply List.filter_eq_self.2
        intro q hq
        simp only [Bool.not_eq_true', decide_eq_false_iff_not]
        intro hq1
        exact h.1 (hq1 ▸ List.mem_map_of_mem Prod.fst hq)
      simp [dictPop, hrest]
    · simp [dictPop, hk, ih h.2]

theorem mem_keys_iff_isSome {V : Type} (l : List (String × V)) (k : String) :
    k ∈ l.map Prod.fst ↔ (dictGet l k).isSome = true := by
  induction l with
  | nil => simp [dictGet]
  | cons p rest ih =>
    by_cases hk : p.1 = k
    · simp [dictGet, hk]
    · simp [dictGet, hk, ih, Ne.symm hk]

theorem dictSet_eq_append_of_not_mem {V : Type} (l : List (String × V))
    (k : String) (v : V) (h : k ∉ l.map Prod.fst) : dictSet l k v = l ++ [(k, v)] := by
  induction l with
  | nil => simp [dictSet]
  | cons p rest ih =>
    simp only [List.map_cons, List.mem_cons, not_or] at h
    simp [dictSet, Ne.symm h.1, ih h.2]

theorem trimFront_length_le (limit : Nat) (l : List Identity) :
    (trimFront limit l).length ≤ limit := by
  induction l with
  | nil => simp [trimFront]
  | cons x xs ih =>
    by_cases hl : xs.length + 1 > limit
    · simpa [trimFront, hl] using ih
    · simp only [trimFront, hl, if_false]
      simpa using Nat.le_of_not_lt hl

theorem trimFront_suffix (limit : Nat) (l : List Identity) :
    trimFront limit l <:+ l := by
  induction l with
  | nil => simp [trimFront]
  | cons x xs ih =>
    by_cases hl : xs.length + 1 > limit
    · simp only [trimFront, hl, if_true]
      exact ih.trans (List.suffix_cons x xs)
    · simp [trimFront, hl]

theorem trimFront_eq_of_le (limit : Nat) (l : List Identity)
    (h : l.length ≤ limit) : trimFront limit l = l := by
  cases l with
  | nil => simp [trimFront]
  | cons x xs =>
    simp only [List.length_cons] at h
    simp [trimFront, Nat.not_lt.2 h]

theorem dictGet_foldlSetNone_not_mem (keys : List String) (a : Attrs) (k : String)
    (h : k ∉ keys) :
    dictGet (keys.foldl (fun acc x => dictSet acc x none) a) k = dictGet a k := by
  induction keys generalizing a with
  | nil => simp
  | cons x rest ih =>
    simp only [List.mem_cons, not_or] at h
    simp only [List.foldl_cons]
    rw [ih _ h.2, dictGet_dictSet_ne _ _ _ _ h.1]

theorem dictGet_foldlSetNone_mem (keys : List String) (a : Attrs) (k : String)
    (h : k ∈ keys) :
    dictGet (keys.foldl (fun acc x => dictSet acc x none) a) k = some none := by
  induction keys generalizing a with
  | nil => simp at h
  | cons x rest ih =>
    simp only [List.foldl_cons]
    by_cases hr : k ∈ rest
    · exact ih _ hr
    · have hx : k = x := by
        rcases List.mem_cons.1 h with h1 | h1
        · exact h1
        · exact absurd h1 hr
      subst hx
      rw [dictGet_foldlSetNone_not_mem _ _ _ hr, dictGet_dictSet_self]

theorem dictGet_resetAttrs (a : Attrs) (k : String) (h : k ∈ DEVICE_ATTRIBUTES) :
    dictGet (resetAttrs a) k = some none :=
  dictGet_foldlSetNone_mem DEVICE_ATTRIBUTES a k h

theorem countConnected_aux (devs : List (String × ARConnectedDevice))
    (n : Nat) (acc : List Identity) :
    devs.foldl
      (fun acc2 p =>
        if p.2.connected then (acc2.1 + 1, acc2.2 ++ [p.2.identity]) else acc2)
      (n, acc)
    = (n + (devs.filter (fun p => p.2.connected)).length,
       acc ++ (devs.filter (fun p => p.2.connected)).map (fun p => p.2.identity)) := by
  induction devs generalizing n acc with
  | nil => simp
  | cons p rest ih =>
    by_cases hc : p.2.connected
    · rw [List.foldl_cons, if_pos hc, ih]
      simp only [List.filter_cons, hc, if_true, List.length_cons, List.map_cons]
      rw [Prod.mk.injEq]
      constructor
      · show n + 1 + _ = _
        omega
      · show acc ++ [p.2.identity] ++ _ = acc ++ _
        rw [List.append_assoc]
        rfl
    · rw [List.foldl_cons, if_neg hc, ih]
      simp [List.filter_cons, hc]

theorem countConnected_eq (devs : List (String × ARConnectedDevice)) :
    countConnected devs
    = ((devs.filter (fun p => p.2.connected)).length,
       (devs.filter (fun p => p.2.connected)).map (fun p => p.2.identity)) := by
  simpa using countConnected_aux devs 0 []

theorem update_unpolled_core (st : RouterState) :
    (update_unpolled st).1.devices = st.devices
    ∧ (update_unpolled st).1.connected_devices = st.connected_devices
    ∧ (update_unpolled st).1.connected_devices_list = st.connected_devices_list
    ∧ (update_unpolled st).1.latest = st.latest
    ∧ (update_unpolled st).1.connect_error = st.connect_error := by
  rcases st with ⟨cn, devs, cd, cdl, lat, ce, sh, dc, oc⟩
  cases sh with
  | none => simp [update_unpolled]
  | some h => by_cases hdc : dc <;> simp [update_unpolled, hdc]

theorem dictSet_map_fst {V : Type} (l : List (String × V)) (k : String) (v : V) :
    (dictSet l k v).map Prod.fst
    = if k ∈ l.map Prod.fst then l.map Prod.fst else l.map Prod.fst ++ [k] := by
  induction l with
  | nil => simp [dictSet]
  | cons p rest ih =>
    by_cases hk : p.1 = k
    · simp [dictSet, hk]
    · simp only [dictSet, hk, if_false, List.map_cons, ih]
      by_cases hm : k ∈ rest.map Prod.fst <;>
        simp [hm, List.mem_cons, Ne.symm hk]

theorem dictSet_keys_nodup {V : Type} (l : List (String × V)) (k : String) (v : V)
    (h : (l.map Prod.fst).Nodup) : ((dictSet l k v).map Prod.fst).Nodup := by
  rw [dictSet_map_fst]
  by_cases hm : k ∈ l.map Prod.fst
  · simpa [hm] using h
  · simp only [hm, if_false]
    simpa [List.nodup_append, hm] using h

theorem buildWrt_aux_nodup {V : Type} :
    ∀ (api acc : List (String × V)), ((acc.map Prod.fst).Nodup) →
      (((api.foldl (fun a p => dictSet a p.1 p.2) acc).map Prod.fst).Nodup) := by
  intro api
  induction api with
  | nil => intro acc h; simpa using h
  | cons p rest ih =>
    intro acc h
    simpa using ih (dictSet acc p.1 p.2) (dictSet_keys_nodup acc p.1 p.2 h)

theorem buildWrt_keys_nodup (fmac : String → String)
    (api : List (String × ConnectedDevice)) :
    ((buildWrt fmac api).map Prod.fst).Nodup := by
  have h := buildWrt_aux_nodup (api.map (fun p => (fmac p.1, p.2))) [] (by simp)
  have he : (api.map (fun p => (fmac p.1, p.2))).foldl
      (fun a p => dictSet a p.1 p.2) ([] : List (String × ConnectedDevice))
      = buildWrt fmac api := by
    rw [buildWrt, List.foldl_map]
  rwa [he] at h

theorem map_fst_filter {V : Type} (l : List (String × V)) (q : String → Bool) :
    (l.filter (fun p => q p.1)).map Prod.fst = (l.map Prod.fst).filter q := by
  induction l with
  | nil => simp
  | cons p rest ih =>
    by_cases hq : q p.1 <;> simp [List.filter_cons, hq, ih]

theorem foldl_dictSet_eq_append {V : Type} :
    ∀ (news acc : List (String × V)),
      ((news.map Prod.fst).Nodup) →
      (∀ p ∈ news, p.1 ∉ acc.map Prod.fst) →
      news.foldl (fun a p => dictSet a p.1 p.2) acc = acc ++ news := by
  intro news
  induction news with
  | nil => intro acc _ _; simp
  | cons p rest ih =>
    intro acc hnd hdisj
    simp only [List.map_cons, List.nodup_cons] at hnd
    rw [List.foldl_cons,
      dictSet_eq_append_of_not_mem acc p.1 p.2 (hdisj p (List.mem_cons_self p rest)),
      ih (acc ++ [(p.1, p.2)]) hnd.2]
    · simp
    · intro q hq
      simp only [List.map_append, List.mem_append, not_or]
      refine ⟨hdisj q (List.mem_cons_of_mem p hq), ?_⟩
      simp only [List.map_cons, List.map_nil, List.mem_singleton]
      intro hq1
      exact hnd.1 (hq1 ▸ List.mem_map_of_mem Prod.fst hq)

theorem reconcileOld_spec (now ch : Int) :
    ∀ (devs : List (String × ARConnectedDevice))
      (wrt : List (String × ConnectedDevice))
      (out : List (String × ARConnectedDevice) × List Event ×
        List (String × ConnectedDevice)),
      (devs.map Prod.fst).Nodup →
      reconcileOld now ch devs wrt = some out →
      out.1.map Prod.fst = devs.map Prod.fst
      ∧ ∀ p ∈ devs, ∃ d1 evs,
          p.2.update now (dictGet wrt p.1) ch = some (d1, evs)
          ∧ (p.1, d1) ∈ out.1 := by
  intro devs
  induction devs with
  | nil =>
    intro wrt out _ h
    simp only [reconcileOld, Option.some.injEq] at h
    subst h
    simp
  | cons p rest ih =>
    intro wrt out hnd h
    simp only [reconcileOld] at h
    rcases hu : p.2.update now (dictPop wrt p.1).1 ch with _ | ⟨d1, evs⟩ <;>
      rw [hu] at h
    · simp at h
    rcases hr : reconcileOld now ch rest (dictPop wrt p.1).2 with _ | ⟨⟨rest1, evs1, rem⟩⟩ <;>
      rw [hr] at h
    · simp at h
    simp only [Option.some.injEq] at h
    subst h
    simp only [List.map_cons, List.nodup_cons] at hnd
    have IH := ih (dictPop wrt p.1).2 (rest1, evs1, rem) hnd.2 hr
    constructor
    · simp [IH.1]
    · intro q hq
      rcases List.mem_cons.1 hq with hq1 | hq1
      · subst hq1
        rw [dictPop_fst] at hu
        exact ⟨d1, evs, hu, List.mem_cons_self _ _⟩
      · obtain ⟨d2, evs2, hu2, hm2⟩ := IH.2 q hq1
        have hne : q.1 ≠ p.1 := by
          intro he
          exact hnd.1 (he ▸ List.mem_map_of_mem Prod.fst hq1)
        rw [dictGet_dictPop_ne wrt p.1 q.1 hne] at hu2
        exact ⟨d2, evs2, hu2, List.mem_cons_of_mem _ hm2⟩

theorem reconcileOld_rem (now ch : Int) :
    ∀ (devs : List (String × ARConnectedDevice))
      (wrt : List (String × ConnectedDevice))
      (out : List (String × ARConnectedDevice) × List Event ×
        List (String × ConnectedDevice)),
      ((wrt.map Prod.fst).Nodup) →
      reconcileOld now ch devs wrt = some out →
      out.2.2 = wrt.filter (fun p => decide (p.1 ∉ devs.map Prod.fst)) := by
  intro devs
  induction devs with
  | nil =>
    intro wrt out _ h
    simp only [reconcileOld, Option.some.injEq] at h
    subst h
    simp
  | cons p rest ih =>
    intro wrt out hw h
    simp only [reconcileOld] at h
    rcases hu : p.2.update now (dictPop wrt p.1).1 ch with _ | ⟨d1, evs⟩ <;>
      rw [hu] at h
    · simp at h
    rcases hr : reconcileOld now ch rest (dictPop wrt p.1).2 with _ | ⟨⟨rest1, evs1, rem⟩⟩ <;>
      rw [hr] at h
    · simp at h
    simp only [Option.some.injEq] at h
    subst h
    have hw2 : (((dictPop wrt p.1).2).map Prod.fst).Nodup :=
      ((dictPop_sublist wrt p.1).map Prod.fst).nodup hw
    have IH : rem
        = (dictPop wrt p.1).2.filter (fun q => decide (q.1 ∉ rest.map Prod.fst)) :=
      ih (dictPop wrt p.1).2 (rest1, evs1, rem) hw2 hr
    show rem = _
    rw [IH, dictPop_eq_filter wrt p.1 hw, List.filter_filter]
    apply List.filter_congr
    intro a _
    by_cases h1 : a.1 = p.1 <;> by_cases h2 : a.1 ∈ rest.map Prod.fst <;>
      simp [h1, h2, List.mem_cons]

theorem addNew_spec (now : Int) :
    ∀ (rem : List (String × ConnectedDevice))
      (out : List (String × ARConnectedDevice) × List Event),
      addNew now rem = some out →
      out.1.map Prod.fst = rem.map Prod.fst
      ∧ ∀ p ∈ rem, ∃ d1 evs,
          (ARConnectedDevice.init p.1 none).update now (some p.2) 0 = some (d1, evs)
          ∧ (p.1, d1) ∈ out.1 := by
  intro rem
  induction rem with
  | nil =>
    intro out h
    simp only [addNew, Option.some.injEq] at h
    subst h
    simp
  | cons p rest ih =>
    intro out h
    simp only [addNew] at h
    rcases hu : (ARConnectedDevice.init p.1 none).update now (some p.2) 0 with _ | ⟨d1, evs⟩ <;>
      rw [hu] at h
    · simp at h
    rcases hr : addNew now rest with _ | ⟨⟨rest1, evs1⟩⟩ <;> rw [hr] at h
    · simp at h
    simp only [Option.some.injEq] at h
    subst h
    have IH := ih (rest1, evs1) hr
    constructor
    · simp [IH.1]
    · intro q hq
      rcases List.mem_cons.1 hq with hq1 | hq1
      · subst hq1
        exact ⟨d1, evs, hu, List.mem_cons_self _ _⟩
      · obtain ⟨d2, evs2, hu2, hm2⟩ := IH.2 q hq1
        exact ⟨d2, evs2, hu2, List.mem_cons_of_mem _ hm2⟩

/-- C9: ARSensorHandler.update_device_count returns False and leaves all four
stored values unchanged when the count, device list, latest-connected
timestamp and latest-connected list passed in all equal the stored values;
otherwise it overwrites all four stored values with the arguments and returns
True. -/
theorem claim_C9_update_device_count (h : ARSensorHandler) (conn : Nat)
    (ld : List Identity) (lc : Option Int) (lcl : List Identity) :
    h.update_device_count conn ld lc lcl
    = if h.connected_devices = conn ∧ h.connected_devices_list = ld
        ∧ h.latest_connected = lc ∧ h.latest_connected_list = lcl
      then (h, false)
      else ({ connected_devices := conn, connected_devices_list := ld
              latest_connected := lc, latest_connected_list := lcl }, true) := by
  rfl

/-- C6: when fetching connected devices fails with UpdateFailed,
update_devices only records and logs the failure and returns: the tracked
device map, the connected count and list, and the latest-connected data are
unchanged (only the connect-error flag is set), no events or signals are
produced, and the error is logged only on the first failure of a consecutive
run of failures. -/
theorem claim_C6_update_devices_fetch_failed (opts : Options)
    (fmac : String → String) (st : RouterState) (now : Int) :
    update_devices opts fmac st (Except.error ()) now
    = some { state := { st with connect_error := true }, fired := [], signals := []
             logs := if st.connect_error then [] else [LogMsg.errorConnecting]
             refreshed := false } := by
  by_cases hc : st.connect_error
  · have hst : { st with connect_error := true } = st := by
      rcases st with ⟨cn, devs, cd, cdl, lat, ce, sh, dc, oc⟩
      simp only at hc
      simp [hc]
    simp [update_devices, hc, hst]
  · simp [update_devices, hc]

/-- C10: the claim asserts that an absent-poll update on a connected device
always finds a valid last-activity timestamp, so the elapsed-time computation
never raises.  The code violates this: an absent poll inside the consider-home
window leaves the device connected but nulls all attributes including
last_activity (router.py lines 335-350), so the next absent poll computes
`utcnow() - None` and raises TypeError.  Concretely: after an absent poll at
instant 1 the device is still connected, and the following absent poll at
instant 2 crashes (the embedding returns none exactly at that raise). -/
theorem claim_C10_last_activity_crash :
    ((wDev.update 1 none 900).map (fun p => p.1.connected) = some true)
    ∧ ((wDev.update 1 none 900).map
        (fun p => dictGet p.1.extra DEVICE_ATTRIBUTE_LAST_ACTIVITY)
        = some (some none))
    ∧ ((wDev.update 1 none 900).bind (fun p => p.1.update 2 none 900) = none) := by
  decide

/-- C1, counterexample: the claim says a connected device is marked offline
only when MORE than consider_home seconds elapsed since its last activity, and
stays connected within the window also when absent from the poll.  At exactly
consider_home elapsed seconds (here 10 with consider_home 10, last activity at
0) an absent poll marks the device offline, because that branch keeps the
device connected only for a strictly smaller elapsed time. -/
theorem claim_C1_counterexample :
    wDev.connected = true
    ∧ dictGet wDev.extra DEVICE_ATTRIBUTE_LAST_ACTIVITY = some (some (Val.time 0))
    ∧ ¬ ((10 : Int) - 0 > 10)
    ∧ (wDev.update 10 none 10).map (fun p => p.1.connected) = some false := by
  decide

/-- C1, amended: for a tracked device currently marked connected with a
recorded last activity, a poll that reports it offline marks it offline
(clearing IP and device attributes) exactly when MORE than consider_home
seconds have elapsed, and leaves it untouched (still connected) otherwise;
a poll in which the device is absent keeps it marked connected exactly when
STRICTLY LESS than consider_home seconds have elapsed (so at exactly
consider_home it is marked offline), and clears its IP and device attributes
in either case, even when it stays connected. -/
theorem claim_C1_consider_home_window (d : ARConnectedDevice)
    (now last ch : Int) (info : ConnectedDevice)
    (hconn : d.connected = true)
    (hla : dictGet d.extra DEVICE_ATTRIBUTE_LAST_ACTIVITY
      = some (some (Val.time last)))
    (hoff : info.online = false) :
    (∃ d1 evs, d.update now none ch = some (d1, evs)
      ∧ (d1.connected = true ↔ now - last < ch)
      ∧ d1.ip = none
      ∧ (∀ k ∈ DEVICE_ATTRIBUTES, dictGet d1.extra k = some none))
    ∧ (∃ d1 evs, d.update now (some info) ch = some (d1, evs)
      ∧ (d1.connected = false ↔ now - last > ch)
      ∧ (now - last > ch → d1.ip = none
          ∧ ∀ k ∈ DEVICE_ATTRIBUTES, dictGet d1.extra k = some none)
      ∧ (¬ now - last > ch →
          d1.connected = true ∧ d1.ip = d.ip ∧ d1.extra = d.extra)) := by
  constructor
  · simp only [ARConnectedDevice.update, hconn, if_true, hla]
    refine ⟨_, _, rfl, ?_, rfl, ?_⟩
    · simp
    · intro k hk
      exact dictGet_resetAttrs d.extra k hk
  · have hextra : ({ d with
        name := info.name,
        identity := { d.identity with name := info.name } } : ARConnectedDevice).extra
        = d.extra := rfl
    simp only [ARConnectedDevice.update, hoff, Bool.false_eq_true, if_false,
      hextra, hla]
    by_cases hgt : now - last > ch
    · simp only [hgt, if_true, if_pos]
      refine ⟨_, _, rfl, ?_, ?_, ?_⟩
      · simp [hgt]
      · intro _
        exact ⟨rfl, fun k hk => dictGet_resetAttrs _ k hk⟩
      · intro hc
        exact absurd trivial hc
    · simp only [hgt, if_false]
      refine ⟨_, _, rfl, ?_, ?_, ?_⟩
      · simp [hconn, hgt]
      · intro hc
        exact hc.elim
      · intro _
        exact ⟨hconn, rfl, rfl⟩

/-- C1, witness: the amended consider-home theorem applied to a connected
device with last activity 0 polled at instant 5 with a 10-second window. -/
theorem claim_C1_witness :
    wDev.connected = true
    ∧ dictGet wDev.extra DEVICE_ATTRIBUTE_LAST_ACTIVITY = some (some (Val.time 0))
    ∧ wInfoOff.online = false
    ∧ ((∃ d1 evs, wDev.update 5 none 10 = some (d1, evs)
        ∧ (d1.connected = true ↔ (5 : Int) - 0 < 10)
        ∧ d1.ip = none
        ∧ (∀ k ∈ DEVICE_ATTRIBUTES, dictGet d1.extra k = some none))
      ∧ (∃ d1 evs, wDev.update 5 (some wInfoOff) 10 = some (d1, evs)
        ∧ (d1.connected = false ↔ (5 : Int) - 0 > 10)
        ∧ ((5 : Int) - 0 > 10 → d1.ip = none
            ∧ ∀ k ∈ DEVICE_ATTRIBUTES, dictGet d1.extra k = some none)
        ∧ (¬ (5 : Int) - 0 > 10 →
            d1.connected = true ∧ d1.ip = wDev.ip ∧ d1.extra = wDev.extra))) :=
  ⟨by decide, by decide, by decide,
    claim_C1_consider_home_window wDev 5 0 10 wInfoOff (by decide) (by decide)
      (by decide)⟩

/-- C5: a device update fires the device-disconnected event exactly when it
changes the device from connected to not connected, and the device-reconnected
event exactly when it changes it from not connected to connected (which only
an online poll does); an update that leaves the connected state unchanged
fires neither. -/
theorem claim_C5_transition_events (d : ARConnectedDevice) (now : Int)
    (info : Option ConnectedDevice) (ch : Int) (d1 : ARConnectedDevice)
    (evs : List Event)
    (h : d.update now info ch = some (d1, evs)) :
    (hasFired EventName.device_disconnected evs = true
      ↔ (d.connected = true ∧ d1.connected = false))
    ∧ (hasFired EventName.device_reconnected evs = true
      ↔ (d.connected = false ∧ d1.connected = true)) := by
  cases info with
  | none =>
    by_cases hc : d.connected
    · simp only [ARConnectedDevice.update, hc, if_true] at h
      rcases hla : dictGet d.extra DEVICE_ATTRIBUTE_LAST_ACTIVITY with _ | ov
      · rw [hla] at h
        exact absurd h (by simp)
      · rcases ov with _ | v
        · rw [hla] at h
          exact absurd h (by simp)
        · cases v with
          | time last =>
            rw [hla] at h
            simp only [Option.some.injEq, Prod.mk.injEq] at h
            obtain ⟨rfl, rfl⟩ := h
            by_cases hs : now - last < ch <;> simp [hasFired, hs, hc]
          | str s =>
            rw [hla] at h
            exact absurd h (by simp)
          | int n =>
            rw [hla] at h
            exact absurd h (by simp)
          | bool b =>
            rw [hla] at h
            exact absurd h (by simp)
    · simp only [ARConnectedDevice.update, hc, if_false, Option.some.injEq,
        Prod.mk.injEq] at h
      obtain ⟨rfl, rfl⟩ := h
      simp [hasFired, hc]
  | some info =>
    by_cases ho : info.online
    · simp only [ARConnectedDevice.update, ho, if_true, Option.some.injEq,
        Prod.mk.injEq] at h
      obtain ⟨rfl, rfl⟩ := h
      by_cases hc : d.connected <;> simp [hasFired, hc]
    · simp only [ARConnectedDevice.update, ho, Bool.false_eq_true, if_false] at h
      rcases hla : dictGet d.extra DEVICE_ATTRIBUTE_LAST_ACTIVITY with _ | ov
      · rw [hla] at h
        simp only [Option.some.injEq, Prod.mk.injEq] at h
        obtain ⟨rfl, rfl⟩ := h
        by_cases hc : d.connected <;> simp [hasFired, hc]
      · rcases ov with _ | v
        · rw [hla] at h
          simp only [Option.some.injEq, Prod.mk.injEq] at h
          obtain ⟨rfl, rfl⟩ := h
          by_cases hc : d.connected <;> simp [hasFired, hc]
        · cases v with
          | time last =>
            rw [hla] at h
            by_cases hgt : now - last > ch
            · simp only [hgt, if_true, Option.some.injEq, Prod.mk.injEq] at h
              obtain ⟨rfl, rfl⟩ := h
              by_cases hc : d.connected <;> simp [hasFired, hc]
            · simp only [hgt, if_false, Option.some.injEq, Prod.mk.injEq] at h
              obtain ⟨rfl, rfl⟩ := h
              by_cases hc : d.connected <;> simp [hasFired, hc]
          | str s =>
            rw [hla] at h
            exact absurd h (by simp)
          | int n =>
            rw [hla] at h
            exact absurd h (by simp)
          | bool b =>
            rw [hla] at h
            exact absurd h (by simp)

/-- C5, witness: an online poll on an already-connected device changes
nothing and fires neither transition event. -/
theorem claim_C5_witness :
    wDev.update 3 (some wInfoOn) 45 = some (w5res.1, w5res.2)
    ∧ ((hasFired EventName.device_disconnected w5res.2 = true
        ↔ (wDev.connected = true ∧ w5res.1.connected = false))
      ∧ (hasFired EventName.device_reconnected w5res.2 = true
        ↔ (wDev.connected = false ∧ w5res.1.connected = true))) :=
  ⟨by decide,
    claim_C5_transition_events wDev 3 (some wInfoOn) 45 w5res.1 w5res.2 (by decide)⟩

/-- C2: after a completed invocation of connected_device the latest-connected
list holds at most the configured bound; the trimmed list is a suffix of the
removal-sort-append result (entries are dropped from the front), and nothing
is dropped while the bound already holds. -/
theorem claim_C2_latest_connected_bound (limit : Nat) (st : LatestState)
    (id1 : Identity) (st1 : LatestState)
    (hpre : st.latest_connected_list.length ≤ limit)
    (h : connected_device limit st id1 = some st1) :
    st1.latest_connected_list.length ≤ limit
    ∧ (id1.mac ≠ "" →
        st1.latest_connected_list <:+ preTrimList st id1
        ∧ ((preTrimList st id1).length ≤ limit →
            st1.latest_connected_list = preTrimList st id1)) := by
  by_cases hm : id1.mac = ""
  · simp only [connected_device, hm, if_true, Option.some.injEq] at h
    subst h
    exact ⟨hpre, fun hmac => absurd hm hmac⟩
  · simp only [connected_device, hm, if_false] at h
    rcases hl : (trimFront limit (preTrimList st id1)).getLast? with _ | lastE <;>
      rw [hl] at h
    · exact absurd h (by simp)
    · simp only [Option.some.injEq] at h
      subst h
      exact ⟨trimFront_length_le limit _,
        fun _ => ⟨trimFront_suffix limit _,
          fun hle => trimFront_eq_of_le limit _ hle⟩⟩

/-- C2, witness: the bound theorem applied with bound 2 to a one-entry list. -/
theorem claim_C2_witness :
    cLatest.latest_connected_list.length ≤ 2
    ∧ (w2st1.latest_connected_list.length ≤ 2
      ∧ (cIdB.mac ≠ "" →
          w2st1.latest_connected_list <:+ preTrimList cLatest cIdB
          ∧ ((preTrimList cLatest cIdB).length ≤ 2 →
              w2st1.latest_connected_list = preTrimList cLatest cIdB))) :=
  ⟨by decide,
    claim_C2_latest_connected_bound 2 cLatest cIdB w2st1 (by decide) (by decide)⟩

/-- C3, counterexample: the claim says the latest-connected list is ordered by
connection time and the stored timestamp is the maximum connection time in the
list.  connected_device sorts BEFORE appending the new identity, so adding a
device whose reported connection time (5) lies before an existing entry (10)
leaves the list unsorted and stores 5, not the maximum 10. -/
theorem claim_C3_counterexample :
    connected_device 5 cLatest cIdB
      = some { latest_connected := some 5, latest_connected_list := [cIdA, cIdB] }
    ∧ cIdA.connected = some 10
    ∧ ¬ List.Pairwise connRel [cIdA, cIdB]
    ∧ ((5 : Int) < 10) := by
  refine ⟨by decide, by decide, ?_, by decide⟩
  intro hp
  have := List.rel_of_pairwise_cons hp (List.mem_singleton_self cIdB)
  simp [connRel, timeLE, cIdA, cIdB] at this

/-- C3, amended: after a completed invocation of connected_device (on a state
whose entries all carry connection times, where the Python sort cannot raise),
all entries except the last are ordered by connection time, the newly passed
identity is the last entry regardless of its connection time, and the stored
latest-connected timestamp is the connection time of that last entry, which
need not be the maximum in the list. -/
theorem claim_C3_latest_connected_order (limit : Nat) (st : LatestState)
    (id1 : Identity) (st1 : LatestState)
    (hmac : id1.mac ≠ "")
    (hts : ∀ e ∈ st.latest_connected_list, e.connected.isSome = true)
    (hid : id1.connected.isSome = true)
    (h : connected_device limit st id1 = some st1) :
    st1.latest_connected_list.getLast? = some id1
    ∧ st1.latest_connected = id1.connected
    ∧ List.Pairwise connRel st1.latest_connected_list.dropLast := by
  simp only [connected_device, hmac, if_false] at h
  rcases hl : (trimFront limit (preTrimList st id1)).getLast? with _ | lastE <;>
    rw [hl] at h
  · exact absurd h (by simp)
  simp only [Option.some.injEq] at h
  subst h
  have hsuf : trimFront limit (preTrimList st id1) <:+ preTrimList st id1 :=
    trimFront_suffix limit _
  have hne : trimFront limit (preTrimList st id1) ≠ [] := by
    intro he
    rw [he] at hl
    simp at hl
  obtain ⟨u, hu⟩ := hsuf
  have hlastE : lastE = id1 := by
    have h1 : (u ++ trimFront limit (preTrimList st id1)).getLast? = some id1 := by
      rw [hu, preTrimList]
      exact List.getLast?_concat _
    rw [List.getLast?_append, hl] at h1
    simpa using h1
  rw [hlastE] at hl
  refine ⟨hl, by rw [hlastE], ?_⟩
  have hglast : (trimFront limit (preTrimList st id1)).getLast hne = id1 := by
    have h2 := List.getLast?_eq_getLast (trimFront limit (preTrimList st id1)) hne
    rw [hl] at h2
    exact (Option.some.inj h2).symm
  have hdecomp : (trimFront limit (preTrimList st id1)).dropLast ++ [id1]
      = trimFront limit (preTrimList st id1) := by
    conv_rhs => rw [← List.dropLast_append_getLast hne]
    rw [hglast]
  have hs : u ++ (trimFront limit (preTrimList st id1)).dropLast
      = List.insertionSort connRel (pyForRemove id1.mac st.latest_connected_list) := by
    apply List.append_cancel_right
    show _ ++ [id1] = _
    rw [List.append_assoc, hdecomp, hu, preTrimList]
  have hsorted : List.Pairwise connRel
      (List.insertionSort connRel (pyForRemove id1.mac st.latest_connected_list)) :=
    List.sorted_insertionSort connRel _
  exact List.Pairwise.sublist (List.IsSuffix.sublist ⟨u, hs⟩) hsorted

/-- C3, witness: the amended theorem applied with bound 2 to a one-entry list
and a later-connected identity. -/
theorem claim_C3_witness :
    cIdB.mac ≠ ""
    ∧ (∀ e ∈ cLatest.latest_connected_list, e.connected.isSome = true)
    ∧ cIdB.connected.isSome = true
    ∧ (w2st1.latest_connected_list.getLast? = some cIdB
      ∧ w2st1.latest_connected = cIdB.connected
      ∧ List.Pairwise connRel w2st1.latest_connected_list.dropLast) :=
  ⟨by decide, by decide, by decide,
    claim_C3_latest_connected_order 2 cLatest cIdB w2st1 (by decide) (by decide)
      (by decide) (by decide)⟩

theorem update_unpolled_devices (st : RouterState) :
    (update_unpolled st).1.devices = st.devices :=
  (update_unpolled_core st).1

/-- C8: after every successful update_devices call the stored connected-device
count equals the number of tracked devices marked connected, which is also the
length of the connected-devices list, and that list holds exactly the
identities of the connected devices. -/
theorem claim_C8_connected_count (opts : Options) (fmac : String → String)
    (st : RouterState) (api_devices : List (String × ConnectedDevice)) (now : Int)
    (out : UpdateOutput)
    (h : update_devices opts fmac st (Except.ok api_devices) now = some out) :
    out.state.connected_devices
      = (out.state.devices.filter (fun p => p.2.connected)).length
    ∧ out.state.connected_devices_list
      = (out.state.devices.filter (fun p => p.2.connected)).map (fun p => p.2.identity)
    ∧ out.state.connected_devices = out.state.connected_devices_list.length := by
  simp only [update_devices] at h
  split at h
  next => simp at h
  next updOld evs1 wrtRem hrec =>
    split at h
    next => simp at h
    next newDevs evs2 hadd =>
      split at h
      next => simp at h
      next latest1 firedCalls happ =>
        simp only [Option.some.injEq] at h
        subst h
        dsimp only
        rcases hsh : st.sensor_handler with _ | sh
        · simp [update_unpolled, hsh, countConnected_eq]
        · by_cases hdc : st.devices_coordinator <;>
            simp [update_unpolled, hsh, hdc, countConnected_eq]

/-- C8, witness: the count invariant on a two-device poll over a one-device
tracked map. -/
theorem claim_C8_witness :
    update_devices {} (fun s => s) w4st (Except.ok w4api) 7 = some w4out
    ∧ (w4out.state.connected_devices
        = (w4out.state.devices.filter (fun p => p.2.connected)).length
      ∧ w4out.state.connected_devices_list
        = (w4out.state.devices.filter (fun p => p.2.connected)).map
            (fun p => p.2.identity)
      ∧ w4out.state.connected_devices
        = w4out.state.connected_devices_list.length) :=
  ⟨by decide,
    claim_C8_connected_count {} (fun s => s) w4st w4api 7 w4out (by decide)⟩

/-- C4: a successful update_devices poll reconciles the previous snapshot
against the fresh one: every previously tracked device is updated with its
fresh info (or with absence when its mac is missing from the poll), every
polled mac not previously tracked is added to the tracked map as a new device
with a device-connected event fired for it, and the new-device signal is
dispatched if and only if at least one new device appeared. -/
theorem claim_C4_reconcile (opts : Options) (fmac : String → String)
    (st : RouterState) (api_devices : List (String × ConnectedDevice)) (now : Int)
    (out : UpdateOutput)
    (hnd : (st.devices.map Prod.fst).Nodup)
    (h : update_devices opts fmac st (Except.ok api_devices) now = some out) :
    (∀ p ∈ st.devices, ∃ d1 evs,
        p.2.update now (dictGet (buildWrt fmac api_devices) p.1)
          (optConsiderHome opts) = some (d1, evs)
        ∧ (p.1, d1) ∈ out.state.devices)
    ∧ (∀ mac ∈ (buildWrt fmac api_devices).map Prod.fst,
        mac ∉ st.devices.map Prod.fst →
        ∃ d1, (mac, d1) ∈ out.state.devices
          ∧ (EventName.device_connected, d1.identity) ∈ out.fired)
    ∧ out.state.devices.map Prod.fst
      = st.devices.map Prod.fst
        ++ ((buildWrt fmac api_devices).map Prod.fst).filter
            (fun m => decide (m ∉ st.devices.map Prod.fst))
    ∧ (Signal.device_new ∈ out.signals
      ↔ ∃ mac, mac ∈ (buildWrt fmac api_devices).map Prod.fst
          ∧ mac ∉ st.devices.map Prod.fst) := by
  simp only [update_devices] at h
  split at h
  next => simp at h
  next updOld evs1 wrtRem hrec =>
    split at h
    next => simp at h
    next newDevs evs2 hadd =>
      split at h
      next => simp at h
      next latest1 firedCalls happ =>
        simp only [Option.some.injEq] at h
        subst h
        dsimp only
        have hw := buildWrt_keys_nodup fmac api_devices
        have hspec := reconcileOld_spec now (optConsiderHome opts) st.devices
          (buildWrt fmac api_devices) (updOld, evs1, wrtRem) hnd hrec
        have hkeys : updOld.map Prod.fst = st.devices.map Prod.fst := hspec.1
        have hupd : ∀ p ∈ st.devices, ∃ d1 evs,
            p.2.update now (dictGet (buildWrt fmac api_devices) p.1)
              (optConsiderHome opts) = some (d1, evs) ∧ (p.1, d1) ∈ updOld := hspec.2
        have hrem : wrtRem = (buildWrt fmac api_devices).filter
            (fun p => decide (p.1 ∉ st.devices.map Prod.fst)) :=
          reconcileOld_rem now (optConsiderHome opts) st.devices
            (buildWrt fmac api_devices) (updOld, evs1, wrtRem) hw hrec
        have haddS := addNew_spec now wrtRem (newDevs, evs2) hadd
        have hnkeys : newDevs.map Prod.fst = wrtRem.map Prod.fst := haddS.1
        have hnew : ∀ p ∈ wrtRem, ∃ d1 evs,
            (ARConnectedDevice.init p.1 none).update now (some p.2) 0 = some (d1, evs)
            ∧ (p.1, d1) ∈ newDevs := haddS.2
        have hremkeys : wrtRem.map Prod.fst
            = ((buildWrt fmac api_devices).map Prod.fst).filter
                (fun m => decide (m ∉ st.devices.map Prod.fst)) := by
          rw [hrem]
          exact map_fst_filter (buildWrt fmac api_devices)
            (fun m => decide (m ∉ st.devices.map Prod.fst))
        have hnodupNew : (newDevs.map Prod.fst).Nodup := by
          rw [hnkeys, hremkeys]
          exact (List.filter_sublist _).nodup hw
        have hdisj : ∀ p ∈ newDevs, p.1 ∉ updOld.map Prod.fst := by
          intro p hp
          have hpk : p.1 ∈ wrtRem.map Prod.fst := by
            rw [← hnkeys]
            exact List.mem_map_of_mem Prod.fst hp
          rw [hremkeys, List.mem_filter] at hpk
          rw [hkeys]
          simpa using hpk.2
        have hdev1 : newDevs.foldl (fun acc p => dictSet acc p.1 p.2) updOld
            = updOld ++ newDevs :=
          foldl_dictSet_eq_append newDevs updOld hnodupNew hdisj
        rw [update_unpolled_devices]
        dsimp only
        rw [hdev1]
        refine ⟨?_, ?_, ?_, ?_⟩
        · intro p hp
          obtain ⟨d1, evs, hu, hmem⟩ := hupd p hp
          exact ⟨d1, evs, hu, List.mem_append_left _ hmem⟩
        · intro mac hmac hnotin
          have hmk : mac ∈ wrtRem.map Prod.fst := by
            rw [hremkeys, List.mem_filter]
            exact ⟨hmac, by simpa using hnotin⟩
          obtain ⟨q, hqmem, hqeq⟩ := List.mem_map.1 hmk
          obtain ⟨d1, evs, hu, hmemN⟩ := hnew q hqmem
          subst hqeq
          refine ⟨d1, List.mem_append_right _ hmemN, ?_⟩
          apply List.mem_append_right
          exact List.mem_map.2 ⟨(q.1, d1), hmemN, rfl⟩
        · rw [List.map_append, hkeys, hnkeys, hremkeys]
        · by_cases hre : wrtRem = []
          · subst hre
            constructor
            · intro hmem
              simp at hmem
            · rintro ⟨mac, hmac, hnot⟩
              exfalso
              have hf : ((buildWrt fmac api_devices).map Prod.fst).filter
                  (fun m => decide (m ∉ st.devices.map Prod.fst)) = [] := by
                simpa using hremkeys.symm
              have hmem := List.filter_eq_nil_iff.1 hf mac hmac
              exact hnot (by simpa using hmem)
          · constructor
            · intro _
              obtain ⟨p, hp⟩ := List.exists_mem_of_ne_nil wrtRem hre
              have hpk : p.1 ∈ wrtRem.map Prod.fst := List.mem_map_of_mem Prod.fst hp
              rw [hremkeys, List.mem_filter] at hpk
              exact ⟨p.1, hpk.1, by simpa using hpk.2⟩
            · intro _
              have hie : wrtRem.isEmpty = false := by
                simpa using hre
              simp [hie]

/-- C4, witness: the reconciliation theorem applied to a one-device tracked
map polled with the tracked mac plus one unseen mac. -/
theorem claim_C4_witness :
    (w4st.devices.map Prod.fst).Nodup
    ∧ ((∀ p ∈ w4st.devices, ∃ d1 evs,
          p.2.update 7 (dictGet (buildWrt (fun s => s) w4api) p.1)
            (optConsiderHome {}) = some (d1, evs)
          ∧ (p.1, d1) ∈ w4out.state.devices)
      ∧ (∀ mac ∈ (buildWrt (fun s => s) w4api).map Prod.fst,
          mac ∉ w4st.devices.map Prod.fst →
          ∃ d1, (mac, d1) ∈ w4out.state.devices
            ∧ (EventName.device_connected, d1.identity) ∈ w4out.fired)
      ∧ w4out.state.devices.map Prod.fst
        = w4st.devices.map Prod.fst
          ++ ((buildWrt (fun s => s) w4api).map Prod.fst).filter
              (fun m => decide (m ∉ w4st.devices.map Prod.fst))
      ∧ (Signal.device_new ∈ w4out.signals
        ↔ ∃ mac, mac ∈ (buildWrt (fun s => s) w4api).map Prod.fst
            ∧ mac ∉ w4st.devices.map Prod.fst)) :=
  ⟨by decide,
    claim_C4_reconcile {} (fun s => s) w4st w4api 7 w4out (by decide) (by decide)⟩

/-- C7: when setup completes successfully, a periodic device-tracker refresh
is scheduled at the configured device-scan interval (CONF_INTERVAL_DEVICES,
defaulting to DEFAULT_SCAN_INTERVAL) and its cancellation callback is
registered among the on-close callbacks. -/
theorem claim_C7_schedule_on_setup (opts : Options) (fmac : String → String)
    (env : SetupEnv) (st res : RouterState) (effs : List HostEffect)
    (h : setup opts fmac env st = Except.ok (res, effs)) :
    HostEffect.timerScheduled (optIntervalDevices opts) ∈ effs
    ∧ CloseCb.cancelDeviceTimer (optIntervalDevices opts) ∈ res.on_close := by
  simp only [setup] at h
  by_cases hco : env.connect_ok
  · by_cases hic : env.is_connected
    · simp only [hco, hic, not_true, if_false] at h
      split at h
      next => simp at h
      next out hud =>
        split at h
        next => simp at h
        next st2 sensEffs his =>
          simp only [Except.ok.injEq, Prod.mk.injEq] at h
          obtain ⟨rfl, rfl⟩ := h
          constructor
          · simp
          · simp
    · simp [hco, hic] at h
  · simp [hco] at h

/-- C7, witness: the scheduling theorem on a successful setup with a
20-second configured device interval. -/
theorem claim_C7_witness :
    setup w7opts (fun s => s) w7env w7st = Except.ok (w7res.1, w7res.2)
    ∧ (HostEffect.timerScheduled (optIntervalDevices w7opts) ∈ w7res.2
      ∧ CloseCb.cancelDeviceTimer (optIntervalDevices w7opts) ∈ w7res.1.on_close) :=
  ⟨by rfl,
    claim_C7_schedule_on_setup w7opts (fun s => s) w7env w7st w7res.1 w7res.2
      (by rfl)⟩
